import Mathlib

/-
Verification of the NCSF WhatsApp sender (`whatsapp_sender.py`).

Python strings are modelled as Lean `String` at the interfaces of the
repository's functions and as `List Char` for the character-level work
(stripping non-digits, slicing, splitting a file on newlines).  Digits are
the ASCII digits `0`-`9`.  Python `None` is `Option.none`.  The outbound
HTTP traffic is modelled by passing the decoded responses as explicit
arguments: `get_whatsapp_templates` receives the decoded `data` array of
the GET, and the send loop receives one `HttpResponse` per POST it issues.
-/

namespace WhatsappSender

/-! ## Number normalizer (`normalize_number`, lines 18-26) -/

/-- The characters kept by `re.sub(r"\D", "", raw)`: the decimal digits of
the raw input, in order. -/
def digitsOf (s : String) : List Char := s.data.filter Char.isDigit

/-- Character-level core of `normalize_number`, applied to the stripped
digit string `s`: `s.startswith("65")` is prefix testing, `"65" + s`
prepends the two characters, `s[1:]` is `List.drop 1`, and the three rules
are tried in the order the Python writes them. -/
def normalizeDigits (s : List Char) : Option (List Char) :=
  if ['6', '5'] <+: s ∧ s.length = 10 then some s
  else if s.length = 8 then some ('6' :: '5' :: s)
  else if s.length = 9 ∧ ['0'] <+: s then some ('6' :: '5' :: s.drop 1)
  else none

/-- Function `normalize_number(raw)`: strip all non-digit characters, then apply the
three acceptance rules, returning `none` (Python `None`) when no rule
matches. -/
def normalize_number (raw : String) : Option String :=
  (normalizeDigits (digitsOf raw)).map String.mk

/-- The normalization rules as the spec words them, for comparison with the
code: on the stripped digit string, accept a length-10 string whose first
two characters are "65" as-is; prefix "65" to a length-8 string; for a
length-9 string whose first character is "0", drop that "0" and prefix
"65"; otherwise reject. -/
def normalizeSpec (raw : String) : Option String :=
  let s := digitsOf raw
  if s.length = 10 ∧ s.take 2 = ['6', '5'] then some (String.mk s)
  else if s.length = 8 then some (String.mk ('6' :: '5' :: s))
  else if s.length = 9 ∧ s.take 1 = ['0'] then some (String.mk ('6' :: '5' :: s.drop 1))
  else none

/-! ## Templates (`get_whatsapp_templates`, lines 48-54; language-code
resolution, lines 142-147) -/

/-- The `language` entry of a template record, `tpl.get("language")` in
Python: the key may be missing (Python `None`), or hold a plain string, or
hold a dict whose optional "code" key we record. -/
inductive LangVal where
  | pynone : LangVal
  | str (s : String) : LangVal
  | dict (code : Option String) : LangVal
  deriving DecidableEq

/-- One template record of the GET response's `data` array, restricted to
the keys the program reads: `tpl["name"]`, `tpl.get("status")`,
`tpl.get("language")`. -/
structure Template where
  name : String
  status : Option String
  language : LangVal
  deriving DecidableEq

/-- Core of `get_whatsapp_templates`: given the decoded `data` array of the
template-listing GET, keep exactly the templates whose "status" is
"APPROVED" (`[tpl for tpl in data if tpl.get("status") == "APPROVED"]`). -/
def get_whatsapp_templates (data : List Template) : List Template :=
  data.filter (fun tpl => tpl.status == some "APPROVED")

/-- The conditional expression computing `lang_code` from `lang_entry`
(lines 144-147): a dict answers `lang_entry.get("code")` (possibly `None`);
otherwise `lang_entry or "en_US"` replaces a falsy entry (`None` or the
empty string) by "en_US". -/
def langFromEntry : LangVal → Option String
  | LangVal.dict code => code
  | LangVal.str s => some (if s = "" then "en_US" else s)
  | LangVal.pynone => some "en_US"

/-- Language-code resolution before the send loop (lines 142-147):
`next((t for t in templates if t["name"] == template_name), None)` is
`List.find?`; when that is `None` the code takes `lang_entry = {}`, the
empty dict, modelled as `LangVal.dict none`. -/
def resolveLangCode (templates : List Template) (template_name : String) : Option String :=
  langFromEntry
    (match templates.find? (fun t => t.name == template_name) with
     | some tpl => tpl.language
     | none => LangVal.dict none)

/-! ## Batch send loop (lines 149-177) -/

/-- A decoded POST response body as the loop consumes it: either
`resp.json()` succeeds and the chain `.get("error", {}).get("message", "")`
finds the optional error message, or the try-block raises (body not JSON,
or not an object) and the except-branch falls back to `resp.text`. -/
inductive RespBody where
  | json (errorMessage : Option String) : RespBody
  | raw (text : String) : RespBody
  deriving DecidableEq

/-- One HTTP response to a send POST. -/
structure HttpResponse where
  status_code : Nat
  body : RespBody
  deriving DecidableEq

/-- The error string `err` computed at lines 162-165. -/
def extractErr : RespBody → String
  | RespBody.json m => m.getD ""
  | RespBody.raw t => t

/-- One row `[num, resp.status_code, err]` of the `log` list. -/
structure SendRecord where
  number : String
  status_code : Nat
  error : String
  deriving DecidableEq

/-- The loop's mutable state: the `success` and `failure` counters and the
`log` list. -/
structure BatchState where
  success : Nat
  failure : Nat
  log : List SendRecord
  deriving DecidableEq

/-- One iteration of the send loop for number `num`, given the response
`resp` to its POST: classify by `resp.status_code == 200`, bump the
matching counter, and append `[num, resp.status_code, err]` to the log. -/
def sendStep (st : BatchState) (num : String) (resp : HttpResponse) : BatchState :=
  let err := extractErr resp.body
  if resp.status_code = 200 then
    { success := st.success + 1, failure := st.failure,
      log := st.log ++ [⟨num, resp.status_code, err⟩] }
  else
    { success := st.success, failure := st.failure + 1,
      log := st.log ++ [⟨num, resp.status_code, err⟩] }

/-- The send loop run from an arbitrary starting state over the numbers
paired with the responses the network returns for them. -/
def runBatchFrom (st : BatchState) (pairs : List (String × HttpResponse)) : BatchState :=
  pairs.foldl (fun acc p => sendStep acc p.1 p.2) st

/-- The whole loop, starting from `success = failure = 0` and an empty
log. -/
def runBatch (pairs : List (String × HttpResponse)) : BatchState :=
  runBatchFrom ⟨0, 0, []⟩ pairs

/-! ## Credential store (lines 29-43) -/

/-- ASCII whitespace stripped by Python `str.strip()`. -/
def isPySpace (c : Char) : Bool :=
  c == ' ' || c == '\t' || c == '\n' || c == '\r' || c == '\x0b' || c == '\x0c'

/-- Python `l.strip()` on a line: drop whitespace from both ends. -/
def pyStrip (l : List Char) : List Char :=
  ((l.dropWhile isPySpace).reverse.dropWhile isPySpace).reverse

/-- Splitting a file's contents into the lines its iterator yields, with
the trailing newline of each line already removed (the subsequent
`strip()` removes it anyway, so nothing is lost). -/
def splitLines : List Char → List (List Char)
  | [] => [[]]
  | c :: rest =>
    if c = '\n' then [] :: splitLines rest
    else
      match splitLines rest with
      | h :: t => (c :: h) :: t
      | [] => [[c]]

/-- The `st.secrets` entry for "whatsapp" when it is present with all three
keys; the code falls through to the file both when the entry is missing and
when any key is absent, which this model folds into `Option.none`. -/
structure Secrets where
  access_token : String
  phone_number_id : String
  business_account_id : String
  deriving DecidableEq

/-- Function `load_credentials()` (lines 31-39): prefer the secrets source; else, if
`config.txt` exists (`file = some content`), strip each of its lines, keep
the nonempty ones, and return the first three if there are at least three;
else return three empty strings. -/
def load_credentials (secrets : Option Secrets) (file : Option String) :
    String × String × String :=
  match secrets with
  | some s => (s.access_token, s.phone_number_id, s.business_account_id)
  | none =>
    match file with
    | none => ("", "", "")
    | some content =>
      match ((splitLines content.data).map pyStrip).filter (fun l => !l.isEmpty) with
      | la :: lb :: lc :: _ => (String.mk la, String.mk lb, String.mk lc)
      | _ => ("", "", "")

/-- Function `save_credentials(token, phone_id, business_id)` (lines 41-43):
the content written to `config.txt`, i.e. `f"{token}\n{phone_id}\n{business_id}\n"`. -/
def save_credentials (token phone_id business_id : String) : String :=
  token ++ "\n" ++ phone_id ++ "\n" ++ business_id ++ "\n"

/-! ## CSV upload processing (lines 123-127) -/

/-- The upload handler: each parsed CSV row (as a string, pandas having
dropped the empty rows) is normalized, rows normalizing to `None` are
dropped by `dropna`, and the remaining normalized values, in row order,
become the session lead list. -/
def processLeads (rows : List String) : List String :=
  rows.filterMap normalize_number

end WhatsappSender

namespace WhatsappSender

/-! ## Helper lemmas -/

/-- A list is a prefix exactly when taking its length recovers it. -/
theorem isPre_iff_take (pre l : List Char) : (pre <+: l) ↔ l.take pre.length = pre := by
  constructor
  · rintro ⟨t, rfl⟩
    simp
  · intro h
    refine ⟨l.drop pre.length, ?_⟩
    nth_rewrite 1 [← h]
    exact List.take_append_drop _ _

/-- The code's normalizer agrees with the spec's phrasing of the rules. -/
theorem normalize_eq_spec (raw : String) : normalize_number raw = normalizeSpec raw := by
  have h65 : ((digitsOf raw).length = 10 ∧ (digitsOf raw).take 2 = ['6', '5'])
      ↔ (['6', '5'] <+: digitsOf raw ∧ (digitsOf raw).length = 10) := by
    rw [isPre_iff_take]
    exact and_comm
  have h0 : (digitsOf raw).take 1 = ['0'] ↔ ['0'] <+: digitsOf raw := by
    simpa using (isPre_iff_take ['0'] (digitsOf raw)).symm
  simp only [normalize_number, normalizeSpec, normalizeDigits, h65, h0,
    apply_ite (Option.map String.mk), Option.map_some', Option.map_none']

/-- Every character of the stripped input is a digit. -/
theorem digitsOf_digits (raw : String) : ∀ c ∈ digitsOf raw, c.isDigit = true := by
  intro c hc
  exact (List.mem_filter.mp hc).2

/-- Shape of any accepted digit string: 10 characters, starting "65", all
digits. -/
theorem normalizeDigits_shape {s t : List Char} (hdig : ∀ c ∈ s, c.isDigit = true)
    (h : normalizeDigits s = some t) :
    t.length = 10 ∧ t.take 2 = ['6', '5'] ∧ ∀ c ∈ t, c.isDigit = true := by
  unfold normalizeDigits at h
  split_ifs at h with h1 h2 h3
  · obtain ⟨hpre, hlen⟩ := h1
    cases h
    exact ⟨hlen, (isPre_iff_take _ _).mp hpre, hdig⟩
  · cases h
    refine ⟨by simp [h2], rfl, ?_⟩
    intro c hc
    rcases hc with _ | ⟨_, hc⟩
    · decide
    · rcases hc with _ | ⟨_, hc⟩
      · decide
      · exact hdig c hc
  · obtain ⟨hlen, _⟩ := h3
    cases h
    refine ⟨by simp [hlen], rfl, ?_⟩
    intro c hc
    rcases hc with _ | ⟨_, hc⟩
    · decide
    · rcases hc with _ | ⟨_, hc⟩
      · decide
      · exact hdig c (List.mem_of_mem_drop hc)

/-- Shape of any accepted number, at the `String` interface. -/
theorem normalize_number_shape {raw t : String} (h : normalize_number raw = some t) :
    t.length = 10 ∧ t.data.take 2 = ['6', '5'] ∧ ∀ c ∈ t.data, c.isDigit = true := by
  unfold normalize_number at h
  cases hl : normalizeDigits (digitsOf raw) with
  | none => rw [hl] at h; cases h
  | some l =>
    rw [hl] at h
    cases h
    exact normalizeDigits_shape (digitsOf_digits raw) hl

/-- An accepted number is a fixed point of the normalizer. -/
theorem normalize_number_idem {s t : String} (h : normalize_number s = some t) :
    normalize_number t = some t := by
  obtain ⟨hlen, htake, hdig⟩ := normalize_number_shape h
  have hfilter : digitsOf t = t.data := List.filter_eq_self.mpr hdig
  have hpre : ['6', '5'] <+: t.data := (isPre_iff_take _ _).mpr htake
  have hlen10 : t.data.length = 10 := hlen
  unfold normalize_number normalizeDigits
  rw [hfilter, if_pos ⟨hpre, hlen10⟩]
  rfl

end WhatsappSender

namespace WhatsappSender

/-- The log written by one iteration, identical in both branches. -/
theorem sendStep_log (st : BatchState) (num : String) (resp : HttpResponse) :
    (sendStep st num resp).log
      = st.log ++ [⟨num, resp.status_code, extractErr resp.body⟩] := by
  unfold sendStep
  split_ifs <;> rfl

/-- Counter and log bookkeeping of the loop, from any starting state. -/
theorem runBatchFrom_invariant (pairs : List (String × HttpResponse)) (st : BatchState) :
    (runBatchFrom st pairs).success + (runBatchFrom st pairs).failure
        = st.success + st.failure + pairs.length ∧
    (runBatchFrom st pairs).log.map SendRecord.number
        = st.log.map SendRecord.number ++ pairs.map Prod.fst := by
  induction pairs generalizing st with
  | nil => simp [runBatchFrom]
  | cons p rest ih =>
    obtain ⟨ih1, ih2⟩ := ih (sendStep st p.1 p.2)
    have hstep : runBatchFrom st (p :: rest) = runBatchFrom (sendStep st p.1 p.2) rest := rfl
    constructor
    · rw [hstep, ih1]
      unfold sendStep
      split_ifs <;> simp <;> omega
    · rw [hstep, ih2, sendStep_log]
      simp

/-- Every record the loop appends comes from one of the processed pairs,
carrying that pair's number, status code and extracted error. -/
theorem runBatchFrom_log_mem (pairs : List (String × HttpResponse)) (st : BatchState) :
    ∀ r ∈ (runBatchFrom st pairs).log,
      r ∈ st.log ∨ ∃ p ∈ pairs,
        r.number = p.1 ∧ r.status_code = p.2.status_code ∧ r.error = extractErr p.2.body := by
  induction pairs generalizing st with
  | nil => exact fun r hr => Or.inl hr
  | cons p rest ih =>
    intro r hr
    have hstep : runBatchFrom st (p :: rest) = runBatchFrom (sendStep st p.1 p.2) rest := rfl
    rw [hstep] at hr
    rcases ih (sendStep st p.1 p.2) r hr with h | ⟨q, hq, h1, h2, h3⟩
    · rw [sendStep_log] at h
      rcases List.mem_append.mp h with h | h
      · exact Or.inl h
      · rcases List.mem_singleton.mp h with rfl
        exact Or.inr ⟨p, List.mem_cons_self p rest, rfl, rfl, rfl⟩
    · exact Or.inr ⟨q, List.mem_cons_of_mem p hq, h1, h2, h3⟩

end WhatsappSender

namespace WhatsappSender

/-- Splitting consumes a newline-free first line. -/
theorem splitLines_append {xs : List Char} (h : '\n' ∉ xs) (rest : List Char) :
    splitLines (xs ++ '\n' :: rest) = xs :: splitLines rest := by
  induction xs with
  | nil => simp [splitLines]
  | cons c cs ih =>
    have hc : ¬c = '\n' := fun e => h (e ▸ List.mem_cons_self c cs)
    have hcs : '\n' ∉ cs := fun m => h (List.mem_cons_of_mem _ m)
    simp [splitLines, hc, ih hcs]

/-- The three saved values, as the character list of the file content. -/
theorem save_credentials_data (a b c : String) :
    (save_credentials a b c).data
      = a.data ++ '\n' :: (b.data ++ '\n' :: (c.data ++ '\n' :: [])) := by
  have hnl : ("\n" : String).data = ['\n'] := rfl
  simp [save_credentials, String.data_append, hnl]

/-- Round trip through the local file, under the conditions the
counterexample forces: each value nonempty, free of newlines, and already
stripped. -/
theorem save_load_roundtrip (a b c : String)
    (ha1 : a.data ≠ []) (ha2 : pyStrip a.data = a.data) (ha3 : '\n' ∉ a.data)
    (hb1 : b.data ≠ []) (hb2 : pyStrip b.data = b.data) (hb3 : '\n' ∉ b.data)
    (hc1 : c.data ≠ []) (hc2 : pyStrip c.data = c.data) (hc3 : '\n' ∉ c.data) :
    load_credentials none (some (save_credentials a b c)) = (a, b, c) := by
  have hsplit : splitLines (save_credentials a b c).data
      = [a.data, b.data, c.data, []] := by
    rw [save_credentials_data, splitLines_append ha3, splitLines_append hb3,
      splitLines_append hc3]
    rfl
  have hlines :
      ((splitLines (save_credentials a b c).data).map pyStrip).filter (fun l => !l.isEmpty)
        = [a.data, b.data, c.data] := by
    rw [hsplit]
    have hps : pyStrip ([] : List Char) = [] := rfl
    have hea : a.data.isEmpty = false := by simp [List.isEmpty_iff, ha1]
    have heb : b.data.isEmpty = false := by simp [List.isEmpty_iff, hb1]
    have hec : c.data.isEmpty = false := by simp [List.isEmpty_iff, hc1]
    simp [ha2, hb2, hc2, hps, List.filter, hea, heb, hec]
  show (match ((splitLines (save_credentials a b c).data).map pyStrip).filter
        (fun l => !l.isEmpty) with
      | la :: lb :: lc :: _ => (String.mk la, String.mk lb, String.mk lc)
      | _ => ("", "", "")) = (a, b, c)
  rw [hlines]

end WhatsappSender

namespace WhatsappSender

/-! ## Claims -/

/-- C1: for every input list of N numbers, each paired with the response
the network returns to its POST, after the batch loop completes
`success + failure = N` and the log has exactly N entries, one per number,
in input order. -/
theorem claim_C1_batch_accounting (numbers : List String)
    (responses : List HttpResponse) (h : responses.length = numbers.length) :
    (runBatch (numbers.zip responses)).success
        + (runBatch (numbers.zip responses)).failure = numbers.length ∧
    (runBatch (numbers.zip responses)).log.length = numbers.length ∧
    (runBatch (numbers.zip responses)).log.map SendRecord.number = numbers := by
  obtain ⟨h1, h2⟩ := runBatchFrom_invariant (numbers.zip responses) ⟨0, 0, []⟩
  have hlen : (numbers.zip responses).length = numbers.length := by
    rw [List.length_zip, h, Nat.min_self]
  have hfst : (numbers.zip responses).map Prod.fst = numbers :=
    List.map_fst_zip numbers responses (le_of_eq h.symm)
  have hmap : (runBatch (numbers.zip responses)).log.map SendRecord.number = numbers := by
    show (runBatchFrom ⟨0, 0, []⟩ (numbers.zip responses)).log.map SendRecord.number
        = numbers
    rw [h2, hfst]
    rfl
  refine ⟨?_, ?_, hmap⟩
  · show (runBatchFrom ⟨0, 0, []⟩ (numbers.zip responses)).success
        + (runBatchFrom ⟨0, 0, []⟩ (numbers.zip responses)).failure = numbers.length
    rw [h1, hlen]
    simp
  · have := congrArg List.length hmap
    simpa using this

/-- Witness for C1 on a concrete two-element batch with one success and one
failure. -/
theorem claim_C1_witness :
    (runBatch ((["6598578141", "6587654321"] : List String).zip
        [⟨200, RespBody.json none⟩, ⟨500, RespBody.raw "server error"⟩])).success
      + (runBatch ((["6598578141", "6587654321"] : List String).zip
        [⟨200, RespBody.json none⟩, ⟨500, RespBody.raw "server error"⟩])).failure = 2 ∧
    (runBatch ((["6598578141", "6587654321"] : List String).zip
        [⟨200, RespBody.json none⟩, ⟨500, RespBody.raw "server error"⟩])).log.length = 2 ∧
    (runBatch ((["6598578141", "6587654321"] : List String).zip
        [⟨200, RespBody.json none⟩, ⟨500, RespBody.raw "server error"⟩])).log.map
        SendRecord.number = ["6598578141", "6587654321"] :=
  claim_C1_batch_accounting ["6598578141", "6587654321"]
    [⟨200, RespBody.json none⟩, ⟨500, RespBody.raw "server error"⟩] rfl

/-- C2: the normalizer strips non-digits and applies the spec's three rules
in order (stated through `normalizeSpec`), and satisfies the spec's five
examples. -/
theorem claim_C2_normalizer :
    (∀ raw : String, normalize_number raw = normalizeSpec raw) ∧
    normalize_number "6598578141" = some "6598578141" ∧
    normalize_number "98578141" = some "6598578141" ∧
    normalize_number "098578141" = some "6598578141" ∧
    normalize_number "+65 9857 8141" = some "6598578141" ∧
    normalize_number "12345" = none :=
  ⟨normalize_eq_spec, by decide, by decide, by decide, by decide, by decide⟩

/-- C3 fails as stated: when no template matches the chosen name the code
sets `lang_entry = {}`, an empty dict, whose `.get("code")` is Python
`None` — not "en_US". -/
theorem claim_C3_counterexample :
    resolveLangCode [] "hello_world" = none ∧ (none : Option String) ≠ some "en_US" :=
  ⟨rfl, by decide⟩

/-- C3 amended: the resolved code is the matched template's dict "code"
entry when present; "en_US" when the matched template's language entry is
`None` or the empty string; the string itself when it is a nonempty string;
but it is Python `None` both when no template matches the chosen name and
when the language entry is a dict without a "code" key. -/
theorem claim_C3_amended (templates : List Template) (nm : String) :
    (templates.find? (fun t => t.name == nm) = none →
        resolveLangCode templates nm = none) ∧
    (∀ tpl, templates.find? (fun t => t.name == nm) = some tpl →
      (tpl.language = LangVal.pynone → resolveLangCode templates nm = some "en_US") ∧
      (tpl.language = LangVal.str "" → resolveLangCode templates nm = some "en_US") ∧
      (∀ s, tpl.language = LangVal.str s → s ≠ "" →
          resolveLangCode templates nm = some s) ∧
      (∀ co, tpl.language = LangVal.dict co → resolveLangCode templates nm = co)) := by
  constructor
  · intro h
    simp [resolveLangCode, h, langFromEntry]
  · intro tpl h
    refine ⟨fun he => ?_, fun he => ?_, fun s he hs => ?_, fun co he => ?_⟩
    · simp [resolveLangCode, h, he, langFromEntry]
    · simp [resolveLangCode, h, he, langFromEntry]
    · simp [resolveLangCode, h, he, langFromEntry, hs]
    · simp [resolveLangCode, h, he, langFromEntry]

/-- Witness for the amended C3: a matched template carrying a plain
nonempty language string resolves to that string. -/
theorem claim_C3_witness :
    resolveLangCode [⟨"promo", some "APPROVED", LangVal.str "en_GB"⟩] "promo"
      = some "en_GB" :=
  ((claim_C3_amended [⟨"promo", some "APPROVED", LangVal.str "en_GB"⟩] "promo").2
      ⟨"promo", some "APPROVED", LangVal.str "en_GB"⟩ (by decide)).2.2.1 "en_GB" rfl
    (by decide)

/-- C4 fails as stated: a value containing a newline shifts the lines of
the credential file, so loading returns a different triple. -/
theorem claim_C4_counterexample :
    load_credentials none (some (save_credentials "AB\nCD" "p1" "b1"))
      = ("AB", "CD", "p1") ∧
    ("AB", "CD", "p1") ≠ ("AB\nCD", "p1", "b1") :=
  ⟨by decide, by decide⟩

/-- C4 amended: credentials saved then loaded round-trip whenever no
secrets source overrides the file and each of the three values is
nonempty, contains no newline, and is unchanged by stripping (no leading
or trailing whitespace). -/
theorem claim_C4_roundtrip (a b c : String)
    (ha1 : a.data ≠ []) (ha2 : pyStrip a.data = a.data) (ha3 : '\n' ∉ a.data)
    (hb1 : b.data ≠ []) (hb2 : pyStrip b.data = b.data) (hb3 : '\n' ∉ b.data)
    (hc1 : c.data ≠ []) (hc2 : pyStrip c.data = c.data) (hc3 : '\n' ∉ c.data) :
    load_credentials none (some (save_credentials a b c)) = (a, b, c) :=
  save_load_roundtrip a b c ha1 ha2 ha3 hb1 hb2 hb3 hc1 hc2 hc3

/-- Witness for the amended C4 on concrete single-line credentials. -/
theorem claim_C4_witness :
    load_credentials none (some (save_credentials "tok123" "555001" "888002"))
      = ("tok123", "555001", "888002") :=
  claim_C4_roundtrip "tok123" "555001" "888002" (by decide) (by decide) (by decide)
    (by decide) (by decide) (by decide) (by decide) (by decide) (by decide)

/-- C5 fails as stated: a 200 response whose body does not parse as JSON
records its raw text as the error message, so a record classified as a
success can carry a nonempty error message. -/
theorem claim_C5_counterexample :
    (runBatch [("6598578141", ⟨200, RespBody.raw "OK"⟩)]).success = 1 ∧
    (runBatch [("6598578141", ⟨200, RespBody.raw "OK"⟩)]).log
      = [⟨"6598578141", 200, "OK"⟩] ∧
    ("OK" : String) ≠ "" :=
  ⟨rfl, rfl, by decide⟩

/-- C5 amended: a success record's error message is the string extracted
from its response body, hence empty provided every 200 response's body
extraction is empty (as when it parses as JSON without an error message);
a 200 response with a non-JSON body instead records its raw text. -/
theorem claim_C5_amended (pairs : List (String × HttpResponse))
    (h : ∀ p ∈ pairs, p.2.status_code = 200 → extractErr p.2.body = "") :
    ∀ r ∈ (runBatch pairs).log, r.status_code = 200 → r.error = "" := by
  intro r hr h200
  rcases runBatchFrom_log_mem pairs ⟨0, 0, []⟩ r hr with hmem | ⟨p, hp, _, h2, h3⟩
  · exact absurd hmem (List.not_mem_nil r)
  · rw [h3]
    exact h p hp (h2.symm.trans h200)

/-- Witness for the amended C5 on a one-element batch whose 200 response
has a clean JSON body. -/
theorem claim_C5_witness :
    (SendRecord.error ⟨"6598578141", 200, ""⟩) = "" :=
  claim_C5_amended [("6598578141", ⟨200, RespBody.json none⟩)] (by decide)
    ⟨"6598578141", 200, ""⟩ (by decide) rfl

/-- C6: each attempt is classified a success iff its HTTP status is 200,
bumping exactly the matching counter; the appended record carries the
extracted error message, which is the JSON body's error field (defaulting
to "") when the body parses, and the raw text otherwise. -/
theorem claim_C6_classification (st : BatchState) (num : String) (resp : HttpResponse) :
    (resp.status_code = 200 →
      (sendStep st num resp).success = st.success + 1 ∧
      (sendStep st num resp).failure = st.failure) ∧
    (resp.status_code ≠ 200 →
      (sendStep st num resp).success = st.success ∧
      (sendStep st num resp).failure = st.failure + 1) ∧
    (sendStep st num resp).log
      = st.log ++ [⟨num, resp.status_code, extractErr resp.body⟩] ∧
    (∀ m, resp.body = RespBody.json m → extractErr resp.body = m.getD "") ∧
    (∀ t, resp.body = RespBody.raw t → extractErr resp.body = t) := by
  refine ⟨fun h => ?_, fun h => ?_, sendStep_log st num resp, fun m hm => ?_,
    fun t ht => ?_⟩
  · simp [sendStep, h]
  · simp [sendStep, h]
  · rw [hm]; rfl
  · rw [ht]; rfl

/-- Witness for C6: a 200 response bumps the success counter, a 403 one
the failure counter. -/
theorem claim_C6_witness :
    (sendStep ⟨0, 0, []⟩ "6598578141" ⟨200, RespBody.json none⟩).success = 0 + 1 ∧
    (sendStep ⟨0, 0, []⟩ "6598578141" ⟨403, RespBody.raw "denied"⟩).failure = 0 + 1 :=
  ⟨((claim_C6_classification ⟨0, 0, []⟩ "6598578141" ⟨200, RespBody.json none⟩).1 rfl).1,
   ((claim_C6_classification ⟨0, 0, []⟩ "6598578141" ⟨403, RespBody.raw "denied"⟩).2.1
      (by decide)).2⟩

/-- C7: on a fetch result whose statuses are among APPROVED, PENDING and
REJECTED, the fetcher returns an order-preserving sublist containing a
template iff it occurs in the fetch result with status "APPROVED". -/
theorem claim_C7_template_filter (data : List Template)
    (_h : ∀ t ∈ data, t.status = some "APPROVED" ∨ t.status = some "PENDING"
        ∨ t.status = some "REJECTED") :
    (∀ t, t ∈ get_whatsapp_templates data ↔ t ∈ data ∧ t.status = some "APPROVED") ∧
    List.Sublist (get_whatsapp_templates data) data := by
  constructor
  · intro t
    simp [get_whatsapp_templates, List.mem_filter]
  · exact List.filter_sublist data

/-- Witness for C7 on a fetch result with one template of each status. -/
theorem claim_C7_witness :
    ((⟨"a", some "APPROVED", LangVal.pynone⟩ : Template)
        ∈ get_whatsapp_templates
            [⟨"a", some "APPROVED", LangVal.pynone⟩,
             ⟨"b", some "PENDING", LangVal.pynone⟩,
             ⟨"c", some "REJECTED", LangVal.pynone⟩]
      ↔ (⟨"a", some "APPROVED", LangVal.pynone⟩ : Template)
          ∈ [⟨"a", some "APPROVED", LangVal.pynone⟩,
             ⟨"b", some "PENDING", LangVal.pynone⟩,
             ⟨"c", some "REJECTED", LangVal.pynone⟩]
        ∧ (⟨"a", some "APPROVED", LangVal.pynone⟩ : Template).status
            = some "APPROVED") :=
  (claim_C7_template_filter
      [⟨"a", some "APPROVED", LangVal.pynone⟩, ⟨"b", some "PENDING", LangVal.pynone⟩,
       ⟨"c", some "REJECTED", LangVal.pynone⟩] (by decide)).1
    ⟨"a", some "APPROVED", LangVal.pynone⟩

/-- C8: the lead list is exactly the successful normalizations of the CSV
rows in row order, rows that fail to normalize being silently dropped; in
particular the spec's three-row example yields two leads. -/
theorem claim_C8_csv_leads :
    (∀ rows : List String,
      processLeads rows = (rows.map normalize_number).reduceOption) ∧
    processLeads ["6598578141", "notanumber", "98578141"]
      = ["6598578141", "6598578141"] := by
  constructor
  · intro rows
    simp [processLeads, List.reduceOption, List.filterMap_map]
  · decide

/-- C9: normalization is idempotent on every accepted input. -/
theorem claim_C9_idempotent (s t : String) (h : normalize_number s = some t) :
    normalize_number t = some t :=
  normalize_number_idem h

/-- Witness for C9 at the spec's 8-digit example input. -/
theorem claim_C9_witness : normalize_number "6598578141" = some "6598578141" :=
  claim_C9_idempotent "98578141" "6598578141" (by decide)

/-- C10: every accepted number consists of exactly 10 digit characters and
starts with "65". -/
theorem claim_C10_shape (raw t : String) (h : normalize_number raw = some t) :
    t.length = 10 ∧ t.data.take 2 = ['6', '5'] ∧ ∀ c ∈ t.data, c.isDigit = true :=
  normalize_number_shape h

/-- Witness for C10 at a formatted input. -/
theorem claim_C10_witness :
    ("6598578141" : String).length = 10 ∧
    ("6598578141" : String).data.take 2 = ['6', '5'] :=
  ⟨(claim_C10_shape "+65 9857 8141" "6598578141" (by decide)).1,
   (claim_C10_shape "+65 9857 8141" "6598578141" (by decide)).2.1⟩

end WhatsappSender
